import Mathlib

/-!
Shallow embedding of the battery-storage financial simulation engine
(the `useStorageCalculation` hook and the `createCalculationDetail`
drill-down utility of the repository). JavaScript numbers are modelled as
exact rationals; the `Precision.round` helper
(`Math.round(n * 10^d) / 10^d`) is modelled with the floor of `x + 1/2`,
which is the mathematical meaning of `Math.round` on reals. All
definitions are executable; concrete runs are evaluated inside proofs by
kernel reduction.
-/

namespace Storage

/-- The source rounding helper `Precision.round`:
`Math.round(n * 10^digits) / 10^digits`. -/
def precisionRound (n : ℚ) (digits : ℕ) : ℚ :=
  ((n * 10 ^ digits + 1/2).floor : ℤ) / 10 ^ digits

/-- `Precision.yuan`: round to 2 decimal places. -/
def precisionYuan (n : ℚ) : ℚ := precisionRound n 2

/-- `Precision.calc`: round to 4 decimal places. -/
def precisionCalc (n : ℚ) : ℚ := precisionRound n 4

/-- Result record of `calculatePhysics`. -/
structure PhysicsResult where
  annualChargeKWh : ℚ
  annualDischargeKWh : ℚ
  lossKWh : ℚ
  nextSOH : ℚ
deriving DecidableEq

/-- `calculatePhysics` from the hook: SOH degradation (`FIRST_YEAR = 0.04`
in year 1, `ANNUAL = 0.025` afterwards, floored at `MIN_SOH = 0.60`),
usable capacity from the average of start- and end-of-year SOH, and the
annual charge/discharge/loss energies. -/
def calculatePhysics (capacityWh currentSOH dod cycles runDays chargeEff dischargeEff : ℚ)
    (year : ℕ) : PhysicsResult :=
  let degradation : ℚ := if year = 1 then 4/100 else 25/1000
  let yearEndSOH := max (60/100) (currentSOH - degradation)
  let avgSOH := (currentSOH + yearEndSOH) / 2
  let usableCapacityDC := capacityWh * avgSOH * dod
  let dailyDischargeAC := usableCapacityDC * dischargeEff * cycles
  let annualDischargeKWh := precisionCalc (dailyDischargeAC * runDays / 1000)
  let dailyChargeAC := usableCapacityDC / chargeEff * cycles
  let annualChargeKWh := precisionCalc (dailyChargeAC * runDays / 1000)
  let lossKWh := precisionCalc (annualChargeKWh - annualDischargeKWh)
  { annualChargeKWh := annualChargeKWh
    annualDischargeKWh := annualDischargeKWh
    lossKWh := lossKWh
    nextSOH := yearEndSOH }

/-- The subsidy mode of the inputs (`sub_mode: 'energy' | 'capacity'`). -/
inductive SubMode where
  | energy
  | capacity
deriving DecidableEq

/-- Result record of `calculateRevenue`. -/
structure RevenueResult where
  elecRevGross : ℚ
  subRevGross : ℚ
  auxRevGross : ℚ
  totalRevGross : ℚ
  totalRevNet : ℚ
  outputVAT : ℚ
deriving DecidableEq

/-- `calculateRevenue` from the hook: arbitrage, subsidy (with decline
factor and the capacity-mode duration factor `min(1, duration/6)`),
ancillary revenue, and the gross-to-net VAT split. -/
def calculateRevenue (annualDischargeKWh spread auxPrice powerKW durationHours : ℚ)
    (subMode : SubMode) (subPrice : ℚ) (subYears : ℕ) (subDecline vatRate : ℚ)
    (year : ℕ) : RevenueResult :=
  let elecRevGross := precisionYuan (annualDischargeKWh * spread)
  let subRevGross : ℚ :=
    if year ≤ subYears then
      let declineFactor := (1 - subDecline / 100) ^ (year - 1)
      let currentRate := subPrice * declineFactor
      if subMode = SubMode.energy then
        precisionYuan (annualDischargeKWh * currentRate)
      else
        let kFactor := min 1 (durationHours / 6)
        precisionYuan (powerKW * currentRate * kFactor)
    else 0
  let auxRevGross := precisionYuan (powerKW * auxPrice)
  let totalRevGross := precisionYuan (elecRevGross + subRevGross + auxRevGross)
  let totalRevNet := precisionYuan (totalRevGross / (1 + vatRate))
  let outputVAT := precisionYuan (totalRevGross - totalRevNet)
  { elecRevGross := elecRevGross
    subRevGross := subRevGross
    auxRevGross := auxRevGross
    totalRevGross := totalRevGross
    totalRevNet := totalRevNet
    outputVAT := outputVAT }

/-- Result record of `calculateOperatingCosts`. -/
structure CostResult where
  opexGross : ℚ
  opexNet : ℚ
  opexVAT : ℚ
  lossCostGross : ℚ
  lossCostNet : ℚ
  lossVAT : ℚ
deriving DecidableEq

/-- `calculateOperatingCosts` from the hook: gross operating cost and
charging-loss cost, each split into net and VAT components. -/
def calculateOperatingCosts (capacityWh opexRate lossKWh priceValley vatRate : ℚ) :
    CostResult :=
  let opexGross := precisionYuan (capacityWh * opexRate)
  let opexNet := precisionYuan (opexGross / (1 + vatRate))
  let opexVAT := precisionYuan (opexGross - opexNet)
  let lossCostGross := precisionYuan (lossKWh * priceValley)
  let lossCostNet := precisionYuan (lossCostGross / (1 + vatRate))
  let lossVAT := precisionYuan (lossCostGross - lossCostNet)
  { opexGross := opexGross
    opexNet := opexNet
    opexVAT := opexVAT
    lossCostGross := lossCostGross
    lossCostNet := lossCostNet
    lossVAT := lossVAT }

/-- One depreciable asset vintage. -/
structure Asset where
  value : ℚ
  life : ℕ
  age : ℕ
  residualRate : ℚ
deriving DecidableEq

/-- `calculateDepreciation` from the hook, as the literal loop: each asset
with `age < life` contributes rounded straight-line depreciation; every
asset (expired or not) is pushed back with `age + 1`. -/
def calculateDepreciation (assets : List Asset) : ℚ × List Asset :=
  let result := assets.foldl
    (fun (acc : ℚ × List Asset) asset =>
      (acc.1 +
        (if asset.age < asset.life then
          precisionYuan (asset.value * (1 - asset.residualRate) / (asset.life : ℚ))
        else 0),
       acc.2 ++ [{ asset with age := asset.age + 1 }]))
    (0, [])
  (precisionYuan result.1, result.2)

/-- Result record of `calculateLoanService`. -/
structure LoanResult where
  interest : ℚ
  principal : ℚ
  debtService : ℚ
  remainingDebt : ℚ
deriving DecidableEq

/-- `calculateLoanService` from the hook: zero service past the term or
once the principal is below the `1` threshold; otherwise interest at the
loan rate, payment capped at principal plus interest, and the principal
reduced accordingly. -/
def calculateLoanService (remainingDebt annualPMT loanRate : ℚ) (year loanTermN : ℕ) :
    LoanResult :=
  if loanTermN < year ∨ remainingDebt ≤ 1 then
    { interest := 0, principal := 0, debtService := 0, remainingDebt := remainingDebt }
  else
    let interest := precisionYuan (remainingDebt * loanRate)
    let payment := min annualPMT (remainingDebt + interest)
    let principal := precisionYuan (payment - interest)
    let newRemainingDebt := precisionYuan (remainingDebt - principal)
    { interest := interest
      principal := principal
      debtService := payment
      remainingDebt := newRemainingDebt }

/-- Result record of `calculateTaxes` (including the `newVATCredit` field
that the loop writes back into the running state). -/
structure TaxResult where
  vatPayable : ℚ
  remainingVATCredit : ℚ
  newVATCredit : ℚ
  surcharge : ℚ
  taxableIncome : ℚ
  incomeTax : ℚ
  netProfit : ℚ
  ebit : ℚ
  ebitda : ℚ
deriving DecidableEq

/-- `calculateTaxes` from the hook: VAT payable with the credit
carryforward branches, the surcharge, EBIT/EBITDA, taxable income clamped
at zero, income tax and net profit. -/
def calculateTaxes (revenueNet opexNet lossCostNet depreciation interest outputVAT
    inputVAT existingVATCredit taxRate surchargeRate : ℚ) : TaxResult :=
  let deductibleVAT := inputVAT
  let vatPayable0 := precisionYuan (outputVAT - deductibleVAT)
  let vatPair : ℚ × ℚ :=
    if 0 < existingVATCredit then
      if vatPayable0 ≤ existingVATCredit then
        (0, precisionYuan (existingVATCredit - vatPayable0))
      else
        (precisionYuan (vatPayable0 - existingVATCredit), 0)
    else if vatPayable0 < 0 then
      (0, precisionYuan |vatPayable0|)
    else
      (vatPayable0, existingVATCredit)
  let vatPayable := vatPair.1
  let remainingVAT := vatPair.2
  let surcharge := precisionYuan (vatPayable * surchargeRate)
  let ebit := precisionYuan (revenueNet - opexNet - lossCostNet - depreciation)
  let ebitda := precisionYuan (ebit + depreciation)
  let taxableIncome := max 0 (precisionYuan (ebit - interest - surcharge))
  let incomeTax := precisionYuan (taxableIncome * taxRate)
  let netProfit := precisionYuan (ebit - interest - surcharge - incomeTax)
  { vatPayable := vatPayable
    remainingVATCredit := remainingVAT
    newVATCredit := remainingVAT
    surcharge := surcharge
    taxableIncome := taxableIncome
    incomeTax := incomeTax
    netProfit := netProfit
    ebit := ebit
    ebitda := ebitda }

/-- Net present value of a cash-flow list whose first element sits at
time `t`, discounted at rate `r` (the summation inside `calculateIRR` and
`calculateNPV`). -/
def npvAux (r : ℚ) : List ℚ → ℕ → ℚ
  | [], _ => 0
  | c :: rest, t => c / (1 + r) ^ t + npvAux r rest (t + 1)

/-- The derivative accumulator of the Newton-Raphson loop in
`calculateIRR`: `derivative -= t * cf[t] / (1+guess)^(t+1)`. -/
def derivAux (r : ℚ) : List ℚ → ℕ → ℚ
  | [], _ => 0
  | c :: rest, t => -((t : ℚ) * c / (1 + r) ^ (t + 1)) + derivAux r rest (t + 1)

/-- NPV of a whole series at rate `r` (`calculateNPV` from the hook). -/
def calculateNPV (rate : ℚ) (cf : List ℚ) : ℚ := npvAux rate cf 0

/-- NPV evaluated at the current Newton guess inside `calculateIRR`. -/
def npvAt (cf : List ℚ) (g : ℚ) : ℚ := npvAux g cf 0

/-- Derivative of the NPV at the current Newton guess inside
`calculateIRR`. -/
def derivAt (cf : List ℚ) (g : ℚ) : ℚ := derivAux g cf 0

/-- The bounded Newton-Raphson iteration of `calculateIRR`: stop and
return the current guess when `|NPV| < 0.01`, when `|derivative| <
0.0001`, or when the iteration budget is exhausted. -/
def irrGo (cf : List ℚ) (g : ℚ) : ℕ → ℚ
  | 0 => g
  | n + 1 =>
    let npv := npvAt cf g
    let derivative := derivAt cf g
    if |npv| < 1/100 then g
    else if |derivative| < 1/10000 then g
    else irrGo cf (g - npv / derivative) n

/-- `calculateIRR` from the hook: `0` for an empty series, otherwise 100
Newton-Raphson steps from the initial guess `0.1`. -/
def calculateIRR (cf : List ℚ) : ℚ :=
  if cf = [] then 0 else irrGo cf (1/10) 100

/-- The scan of `calculatePayback`: walk the cumulative sum; at the first
positive cumulative value return the interpolated fractional year (clamped
at zero); `99` if it never turns positive. -/
def paybackGo : List ℚ → ℚ → ℕ → ℚ
  | [], _, _ => 99
  | c :: rest, cum, idx =>
    let pre := cum
    let cum2 := cum + c
    if 0 < cum2 then max 0 ((idx : ℚ) - 1 + |pre| / c)
    else paybackGo rest cum2 (idx + 1)

/-- `calculatePayback` from the hook. -/
def calculatePayback (equityCF : List ℚ) : ℚ := paybackGo equityCF 0 0

/-- `calculatePMT` from the hook: the equal-payment amortization formula,
with the rate-zero special case. -/
def calculatePMT (principal rate : ℚ) (periods : ℕ) : ℚ :=
  if rate = 0 then principal / (periods : ℚ)
  else principal * rate * (1 + rate) ^ periods / ((1 + rate) ^ periods - 1)

end Storage


namespace Storage

/-- One line of an itemized investment list (`investmentItems`). -/
structure InvestmentItem where
  amount : ℚ
  taxRate : ℚ
deriving DecidableEq

/-- The `InputParams` record of the hook. Integer-valued year counts are
natural numbers; every other numeric field is a rational. `aug_year = 0`
means no augmentation, matching the `aug_year > 0` guards of the source. -/
structure InputParams where
  years : ℕ
  sub_mode : SubMode
  sub_price : ℚ
  sub_years : ℕ
  sub_decline : ℚ
  aux_price : ℚ
  capacity : ℚ
  duration_hours : ℚ
  charge_eff : ℚ
  discharge_eff : ℚ
  dod : ℚ
  price_valley : ℚ
  capex : ℚ
  spread : ℚ
  opex : ℚ
  cycles : ℚ
  run_days : ℚ
  dep_years : ℕ
  debt_ratio : ℚ
  loan_rate : ℚ
  vat_rate : ℚ
  tax_rate : ℚ
  surcharge_rate : ℚ
  tax_preferential_years : ℕ
  tax_preferential_rate : ℚ
  aug_year : ℕ
  aug_price : ℚ
  aug_dep_years : ℕ
  residual_rate : ℚ
  investmentItems : List InvestmentItem
deriving DecidableEq

/-- The eight validation failures of `validateInputs`, in source order. -/
inductive VErr where
  | capacity
  | duration
  | cycles
  | runDays
  | debtRatioRange
  | dod
  | efficiency
  | subDecline
deriving DecidableEq

/-- The Chinese message text attached to each validation failure in the
source. -/
def VErr.message : VErr → String
  | .capacity => "装机容量必须大于0"
  | .duration => "时长必须大于0"
  | .cycles => "日循环次数必须大于0"
  | .runDays => "年运行天数必须在1-366之间"
  | .debtRatioRange => "贷款比例必须在0-100之间"
  | .dod => "放电深度必须在0-100之间"
  | .efficiency => "效率必须大于0"
  | .subDecline => "补贴退坡率不能大于100%"

/-- `validateInputs` from the hook: push one error per violated rule, in
source order; the caller throws iff the list is nonempty. -/
def validateInputs (i : InputParams) : List VErr :=
  (if i.capacity ≤ 0 then [VErr.capacity] else []) ++
  (if i.duration_hours ≤ 0 then [VErr.duration] else []) ++
  (if i.cycles ≤ 0 then [VErr.cycles] else []) ++
  (if i.run_days ≤ 0 ∨ 366 < i.run_days then [VErr.runDays] else []) ++
  (if i.debt_ratio < 0 ∨ 100 < i.debt_ratio then [VErr.debtRatioRange] else []) ++
  (if i.dod ≤ 0 ∨ 100 < i.dod then [VErr.dod] else []) ++
  (if i.charge_eff ≤ 0 ∨ i.discharge_eff ≤ 0 then [VErr.efficiency] else []) ++
  (if i.sub_decline < 0 ∨ 100 < i.sub_decline then [VErr.subDecline] else [])

/-- The validation rule set exactly as the specification words it:
capacity > 0; duration > 0; daily cycles > 0; 0 < operating days ≤ 366;
0 ≤ debt ratio ≤ 100; 0 < depth-of-discharge ≤ 100; charge and discharge
efficiency > 0; 0 ≤ subsidy decline ≤ 100. -/
def validRules (i : InputParams) : Prop :=
  0 < i.capacity ∧ 0 < i.duration_hours ∧ 0 < i.cycles ∧
  (0 < i.run_days ∧ i.run_days ≤ 366) ∧
  (0 ≤ i.debt_ratio ∧ i.debt_ratio ≤ 100) ∧
  (0 < i.dod ∧ i.dod ≤ 100) ∧
  (0 < i.charge_eff ∧ 0 < i.discharge_eff) ∧
  (0 ≤ i.sub_decline ∧ i.sub_decline ≤ 100)

instance (i : InputParams) : Decidable (validRules i) := by
  unfold validRules
  infer_instance

/-- `params.Wh`: capacity converted to the Wh energy basis. -/
def Wh (i : InputParams) : ℚ := i.capacity * 1000000

/-- `params.kW`: instantaneous power in kW. -/
def kW (i : InputParams) : ℚ := i.capacity / i.duration_hours * 1000

/-- `params.vatRate`. -/
def vatRateF (i : InputParams) : ℚ := i.vat_rate / 100

/-- `params.taxRate`. -/
def taxRateF (i : InputParams) : ℚ := i.tax_rate / 100

/-- `params.residualRate`. -/
def residualRateF (i : InputParams) : ℚ := i.residual_rate / 100

/-- `params.debtRatio`. -/
def debtRatioF (i : InputParams) : ℚ := i.debt_ratio / 100

/-- `params.loanRate`. -/
def loanRateF (i : InputParams) : ℚ := i.loan_rate / 100

/-- `params.chargeEff`. -/
def chargeEffF (i : InputParams) : ℚ := i.charge_eff / 100

/-- `params.dischargeEff`. -/
def dischargeEffF (i : InputParams) : ℚ := i.discharge_eff / 100

/-- `params.dod`. -/
def dodF (i : InputParams) : ℚ := i.dod / 100

/-- `params.loanTerm`: `min(MAX_LOAN_TERM = 10, years)`. -/
def loanTerm (i : InputParams) : ℕ := min 10 i.years

/-- Total gross investment: the sum of the itemized amounts when an item
list is present, otherwise `Wh * capex`. -/
def totalInvGross (i : InputParams) : ℚ :=
  if i.investmentItems ≠ [] then
    (i.investmentItems.map (fun it => it.amount)).sum
  else Wh i * i.capex

/-- Total net (VAT-excluded) investment: per-item
`amount / (1 + rate/100)` (a zero item rate defaults to 13 as in the
source `item.taxRate || 13`), otherwise the lump sum divided by
`1 + vatRate`. -/
def totalInvNet (i : InputParams) : ℚ :=
  if i.investmentItems ≠ [] then
    (i.investmentItems.map
      (fun it => it.amount / (1 + (if it.taxRate = 0 then 13 else it.taxRate) / 100))).sum
  else totalInvGross i / (1 + vatRateF i)

/-- Input VAT of the initial investment: gross minus net. -/
def inputVATOf (i : InputParams) : ℚ := totalInvGross i - totalInvNet i

/-- Initial debt: `Precision.yuan(totalInvGross * debtRatio)`. -/
def debtOf (i : InputParams) : ℚ := precisionYuan (totalInvGross i * debtRatioF i)

/-- Initial equity: `Precision.yuan(totalInvGross * (1 - debtRatio))`. -/
def equityOf (i : InputParams) : ℚ := precisionYuan (totalInvGross i * (1 - debtRatioF i))

/-- The scheduled annual loan payment, computed once per run. -/
def annualPMTOf (i : InputParams) : ℚ :=
  calculatePMT (debtOf i) (loanRateF i) (loanTerm i)

/-- The mutable accumulators threaded through the yearly loop. -/
structure RunState where
  currentSOH : ℚ
  remainingVAT : ℚ
  remainingDebt : ℚ
  assets : List Asset
deriving DecidableEq

/-- The state entering year 1: full SOH, VAT credit seeded with the
investment input VAT, full debt, and the single base asset vintage. -/
def initState (i : InputParams) : RunState :=
  { currentSOH := 1
    remainingVAT := inputVATOf i
    remainingDebt := debtOf i
    assets := [{ value := totalInvNet i, life := i.dep_years, age := 0,
                 residualRate := residualRateF i }] }

/-- Everything one loop iteration computes for its year, including the
intermediate augmentation amounts and the three series entries. -/
structure YearOut where
  sohStart : ℚ
  augCost : ℚ
  augNet : ℚ
  augVAT : ℚ
  creditBeforeTaxes : ℚ
  physics : PhysicsResult
  revenue : RevenueResult
  costs : CostResult
  annualDep : ℚ
  loan : LoanResult
  taxes : TaxResult
  currentTaxRate : ℚ
  residualValue : ℚ
  cf : ℚ
  projectCFYear : ℚ
  yearCostLCOE : ℚ
deriving DecidableEq

/-- One iteration of the yearly loop of `calculate`, in source order:
augmentation (gross cost, its VAT into the credit, a new vintage, the SOH
reset to 0.95), physics, revenue, operating costs, depreciation, loan
service, taxes (with the preferential-rate window and the
`tax_preferential_rate || 15` default), then the equity cash flow, the
all-investment cash flow, the residual value in the final year and the
LCOE cost entry. `augCost`, `augNet` and `augVAT` are zero outside the
augmentation year, so subtracting or adding them unconditionally matches
the guarded mutations of the source. -/
def runStep (i : InputParams) (year : ℕ) (s : RunState) : YearOut × RunState :=
  let augActive := year = i.aug_year ∧ 0 < i.aug_year
  let augCost : ℚ := if augActive then Wh i * i.aug_price else 0
  let augVAT : ℚ := if augActive then augCost - augCost / (1 + vatRateF i) else 0
  let augNet : ℚ := if augActive then augCost / (1 + vatRateF i) else 0
  let vat1 := s.remainingVAT + augVAT
  let assets1 :=
    if augActive then
      s.assets ++ [{ value := augNet, life := i.aug_dep_years, age := 0,
                     residualRate := residualRateF i }]
    else s.assets
  let soh1 : ℚ := if augActive then 95/100 else s.currentSOH
  let physics := calculatePhysics (Wh i) soh1 (dodF i) i.cycles i.run_days
    (chargeEffF i) (dischargeEffF i) year
  let revenue := calculateRevenue physics.annualDischargeKWh i.spread i.aux_price
    (kW i) i.duration_hours i.sub_mode i.sub_price i.sub_years i.sub_decline
    (vatRateF i) year
  let costs := calculateOperatingCosts (Wh i) i.opex physics.lossKWh i.price_valley
    (vatRateF i)
  let depResult := calculateDepreciation assets1
  let annualDep := depResult.1
  let assets2 := depResult.2
  let loan := calculateLoanService s.remainingDebt (annualPMTOf i) (loanRateF i)
    year (loanTerm i)
  let surchargeRateUsed := i.surcharge_rate / 100
  let prefYears := i.tax_preferential_years
  let prefRate := (if i.tax_preferential_rate = 0 then 15 else i.tax_preferential_rate) / 100
  let currentTaxRate := if 0 < prefYears ∧ year ≤ prefYears then prefRate else taxRateF i
  let taxes := calculateTaxes revenue.totalRevNet costs.opexNet costs.lossCostNet
    annualDep loan.interest revenue.outputVAT (costs.opexVAT + costs.lossVAT)
    vat1 currentTaxRate surchargeRateUsed
  let residualValue : ℚ :=
    if year = i.years then (assets2.map (fun a => a.value * a.residualRate)).sum else 0
  let cf := taxes.netProfit + annualDep - loan.principal - augCost + residualValue
  let nopat := (taxes.ebit - taxes.surcharge) * (1 - currentTaxRate)
  let projectCFYear := nopat + annualDep - augNet + residualValue
  let yearCostLCOE := costs.opexNet + costs.lossCostNet + augNet - residualValue
  ({ sohStart := soh1
     augCost := augCost
     augNet := augNet
     augVAT := augVAT
     creditBeforeTaxes := vat1
     physics := physics
     revenue := revenue
     costs := costs
     annualDep := annualDep
     loan := loan
     taxes := taxes
     currentTaxRate := currentTaxRate
     residualValue := residualValue
     cf := cf
     projectCFYear := projectCFYear
     yearCostLCOE := yearCostLCOE },
   { currentSOH := physics.nextSOH
     remainingVAT := taxes.newVATCredit
     remainingDebt := loan.remainingDebt
     assets := assets2 })

/-- The run state after finishing year `y` (`stateAfter i 0` is the state
entering year 1). -/
def stateAfter (i : InputParams) : ℕ → RunState
  | 0 => initState i
  | y + 1 => (runStep i (y + 1) (stateAfter i y)).2

/-- The per-year output record of year `y ≥ 1`. -/
def yearOut (i : InputParams) (y : ℕ) : YearOut :=
  (runStep i y (stateAfter i (y - 1))).1

/-- The equity cash-flow entry pushed for year `y`:
`Precision.yuan(cf)`. -/
def equityEntry (i : InputParams) (y : ℕ) : ℚ := precisionYuan (yearOut i y).cf

/-- The project cash-flow entry pushed for year `y`. -/
def projectEntry (i : InputParams) (y : ℕ) : ℚ :=
  precisionYuan (yearOut i y).projectCFYear

/-- The LCOE cost-series entry pushed for year `y`. -/
def costEntry (i : InputParams) (y : ℕ) : ℚ :=
  precisionYuan (yearOut i y).yearCostLCOE

/-- The generation-series entry pushed for year `y`. -/
def generationEntry (i : InputParams) (y : ℕ) : ℚ :=
  (yearOut i y).physics.annualDischargeKWh

/-- The equity cash-flow series: `-equity` at year 0, then one rounded
entry per simulated year. -/
def equitySeries (i : InputParams) : List ℚ :=
  -equityOf i :: (List.range i.years).map (fun k => equityEntry i (k + 1))

/-- The project (all-investment) cash-flow series: `-totalInvNet` at year
0. -/
def projectSeries (i : InputParams) : List ℚ :=
  -totalInvNet i :: (List.range i.years).map (fun k => projectEntry i (k + 1))

/-- The LCOE cost series: `-totalInvNet` at year 0; built from the cost
entries, independently of the project series. -/
def costSeries (i : InputParams) : List ℚ :=
  -totalInvNet i :: (List.range i.years).map (fun k => costEntry i (k + 1))

/-- The generation series: `0` at year 0. -/
def generationSeries (i : InputParams) : List ℚ :=
  0 :: (List.range i.years).map (fun k => generationEntry i (k + 1))

/-- The key performance indicators assembled after the loop (the fields
of `kpiResult` derived from the four series; `DISCOUNT_RATE = 0.08`). -/
structure KpiResult where
  equity_irr : ℚ
  project_irr : ℚ
  npv : ℚ
  payback : ℚ
  project_payback : ℚ
  lcoe : ℚ
deriving DecidableEq

/-- Assembly of the KPI record from the series, as in the tail of
`calculate`: IRRs scaled to percent, NPV in units of 10000, and
`lcoe = npvCost / npvGen` rounded, or `0` when the generation NPV is not
positive. -/
def kpiOf (i : InputParams) : KpiResult :=
  let irr := calculateIRR (equitySeries i)
  let projIRR := calculateIRR (projectSeries i)
  let npv := calculateNPV (8/100) (projectSeries i)
  let payback := calculatePayback (equitySeries i)
  let projectPayback := calculatePayback (projectSeries i)
  let npvCost := calculateNPV (8/100) (costSeries i)
  let npvGen := calculateNPV (8/100) (generationSeries i)
  let lcoe := if 0 < npvGen then precisionYuan (npvCost / npvGen) else 0
  { equity_irr := irr * 100
    project_irr := projIRR * 100
    npv := npv / 10000
    payback := payback
    project_payback := projectPayback
    lcoe := lcoe }

/-- The full result of a successful run: the per-year records, the four
series and the KPI record. -/
structure CalculationResult where
  rows : List YearOut
  equity_cf : List ℚ
  project_cf : List ℚ
  cost_cf : List ℚ
  generation_cf : List ℚ
  kpi : KpiResult
deriving DecidableEq

/-- A completed run of the engine on validated inputs. -/
def runCalculation (i : InputParams) : CalculationResult :=
  { rows := (List.range i.years).map (fun k => yearOut i (k + 1))
    equity_cf := equitySeries i
    project_cf := projectSeries i
    cost_cf := costSeries i
    generation_cf := generationSeries i
    kpi := kpiOf i }

/-- The `calculate` entry point: validation gates the run; a nonempty
error list aborts with the aggregated error and no partial result. -/
def calculate (i : InputParams) : Except (List VErr) CalculationResult :=
  if validateInputs i = [] then Except.ok (runCalculation i)
  else Except.error (validateInputs i)

/-- The start-of-year SOH reconstruction inside
`createCalculationDetail` (the drill-down utility), translated branch by
branch: year 1 is 1.0; the augmentation year is 0.95; years after the
augmentation year are `0.95 - (year - aug_year - 1) * 0.025`; other years
are `1.0 - 0.04 - (year - 2) * 0.025`; all floored at 0.60. -/
def createCalculationDetailSOH (i : InputParams) (year : ℕ) : ℚ :=
  let raw : ℚ :=
    if year = 1 then 1
    else if year = i.aug_year ∧ 0 < i.aug_year then 95/100
    else if 0 < i.aug_year ∧ i.aug_year < year then
      95/100 - ((year : ℚ) - (i.aug_year : ℚ) - 1) * (25/1000)
    else 1 - 4/100 - ((year : ℚ) - 2) * (25/1000)
  max (60/100) raw

end Storage

namespace Storage

/-- The four-branch VAT credit-carryforward policy exactly as the claim
words it, applied to the computed payable (output VAT minus input VAT,
rounded to cents as all money amounts are) and the existing credit:
(a) a positive credit at least the payable zeroes the payable and is
reduced by it; (b) a positive credit below the payable reduces the payable
and is emptied; (c) a negative payable with no existing credit becomes a
new credit and the payable is zeroed; (d) otherwise the payable stands as
computed. Used only to compare `calculateTaxes` against the claim. -/
def vatCarryforwardPolicy (payable credit : ℚ) : ℚ × ℚ :=
  if 0 < credit ∧ payable ≤ credit then (0, precisionYuan (credit - payable))
  else if 0 < credit ∧ credit < payable then (precisionYuan (payable - credit), 0)
  else if payable < 0 ∧ ¬0 < credit then (0, precisionYuan |payable|)
  else (payable, credit)

/-- The default parameter set of the hook (`useState` initial value). -/
def defaultInputs : InputParams :=
  { years := 20
    sub_mode := SubMode.energy
    sub_price := 35/100
    sub_years := 10
    sub_decline := 0
    aux_price := 0
    capacity := 100
    duration_hours := 2
    charge_eff := 94
    discharge_eff := 94
    dod := 90
    price_valley := 30/100
    capex := 120/100
    spread := 70/100
    opex := 2/100
    cycles := 2
    run_days := 330
    dep_years := 15
    debt_ratio := 70
    loan_rate := 35/10
    vat_rate := 13
    tax_rate := 25
    surcharge_rate := 12
    tax_preferential_years := 0
    tax_preferential_rate := 15
    aug_year := 0
    aug_price := 60/100
    aug_dep_years := 15
    residual_rate := 5
    investmentItems := [] }

/-- Default parameters with an augmentation in year 2. -/
def iAug2 : InputParams := { defaultInputs with aug_year := 2 }

/-- Default parameters with an augmentation in year 1 and a one-year
horizon. -/
def iAug1 : InputParams := { defaultInputs with aug_year := 1, years := 1 }

/-- Default parameters with a one-year horizon. -/
def iYears1 : InputParams := { defaultInputs with years := 1 }

/-- Default parameters with a negative unit capital cost and a one-year
horizon; this set passes `validateInputs`, which does not constrain
`capex`. -/
def iCapexNeg : InputParams := { defaultInputs with capex := -(120/100), years := 1 }

/-- Default parameters with a two-year horizon and a one-year
depreciation life, so the base vintage expires before the final year. -/
def iExpired : InputParams := { defaultInputs with years := 2, dep_years := 1 }

/-- The end-to-end scenario of the claim: capacity 100, duration 2,
2 cycles/day, 330 operating days, DOD 90 %, both efficiencies 94 %,
horizon 1 year, no debt, no subsidy, no ancillary revenue, no
augmentation. -/
def iScenario : InputParams :=
  { defaultInputs with
    years := 1
    debt_ratio := 0
    sub_price := 0
    sub_years := 0
    aux_price := 0
    aug_year := 0 }

end Storage

namespace Storage

theorem ratFloor_eq_intFloor (q : ℚ) : (q.floor : ℤ) = ⌊q⌋ := by
  rw [Rat.floor_def, Rat.floor_def']

theorem precisionRound_nonneg {x : ℚ} (d : ℕ) (h : -(1 / (2 * 10 ^ d)) ≤ x) :
    0 ≤ precisionRound x d := by
  unfold precisionRound
  have hp : (0 : ℚ) < 10 ^ d := by positivity
  apply div_nonneg _ hp.le
  rw [ratFloor_eq_intFloor]
  have harg : (0 : ℚ) ≤ x * 10 ^ d + 1/2 := by
    have hx : -(1/2) ≤ x * 10 ^ d := by
      have := mul_le_mul_of_nonneg_right h hp.le
      calc -(1/2 : ℚ) = -(1 / (2 * 10 ^ d)) * 10 ^ d := by
            field_simp
            ring
        _ ≤ x * 10 ^ d := this
    linarith
  exact_mod_cast Int.floor_nonneg.mpr harg

theorem precisionRound_mono {x y : ℚ} (d : ℕ) (h : x ≤ y) :
    precisionRound x d ≤ precisionRound y d := by
  unfold precisionRound
  have hp : (0 : ℚ) < 10 ^ d := by positivity
  apply (div_le_div_iff_of_pos_right hp).mpr
  rw [ratFloor_eq_intFloor, ratFloor_eq_intFloor]
  have : (⌊x * 10 ^ d + 1/2⌋ : ℤ) ≤ ⌊y * 10 ^ d + 1/2⌋ := by
    apply Int.floor_le_floor
    nlinarith
  exact_mod_cast this

theorem precisionRound_le (x : ℚ) (d : ℕ) :
    precisionRound x d ≤ x + 1 / (2 * 10 ^ d) := by
  unfold precisionRound
  have hp : (0 : ℚ) < 10 ^ d := by positivity
  rw [div_le_iff₀ hp, ratFloor_eq_intFloor]
  calc ((⌊x * 10 ^ d + 1/2⌋ : ℤ) : ℚ) ≤ x * 10 ^ d + 1/2 := Int.floor_le _
    _ = (x + 1 / (2 * 10 ^ d)) * 10 ^ d := by field_simp; ring

theorem precisionYuan_nonneg {x : ℚ} (h : -(1/200) ≤ x) : 0 ≤ precisionYuan x := by
  unfold precisionYuan
  apply precisionRound_nonneg 2
  norm_num at h ⊢
  linarith

theorem precisionYuan_mono {x y : ℚ} (h : x ≤ y) : precisionYuan x ≤ precisionYuan y :=
  precisionRound_mono 2 h

theorem precisionYuan_le (x : ℚ) : precisionYuan x ≤ x + 1/200 := by
  have := precisionRound_le x 2
  unfold precisionYuan
  norm_num at this ⊢
  linarith

end Storage

namespace Storage

theorem calculateTaxes_newVATCredit_nonneg
    (revenueNet opexNet lossCostNet depreciation interest outputVAT inputVAT
      existingVATCredit taxRate surchargeRate : ℚ)
    (hc : 0 ≤ existingVATCredit) :
    0 ≤ (calculateTaxes revenueNet opexNet lossCostNet depreciation interest outputVAT
      inputVAT existingVATCredit taxRate surchargeRate).newVATCredit := by
  unfold calculateTaxes
  dsimp only
  split_ifs with h1 h2 h3
  · exact precisionYuan_nonneg (by linarith)
  · exact le_refl 0
  · exact precisionYuan_nonneg (by have := abs_nonneg (precisionYuan (outputVAT - inputVAT)); linarith)
  · exact hc

theorem calculateLoanService_remainingDebt_nonneg
    (remainingDebt annualPMT loanRate : ℚ) (year loanTermN : ℕ)
    (hd : 0 ≤ remainingDebt) :
    0 ≤ (calculateLoanService remainingDebt annualPMT loanRate year loanTermN).remainingDebt := by
  unfold calculateLoanService
  split_ifs with h
  · exact hd
  · dsimp only
    apply precisionYuan_nonneg
    have hmin : min annualPMT (remainingDebt + precisionYuan (remainingDebt * loanRate)) -
        precisionYuan (remainingDebt * loanRate) ≤ remainingDebt := by
      have := min_le_right annualPMT (remainingDebt + precisionYuan (remainingDebt * loanRate))
      linarith
    have hpr := precisionYuan_mono hmin
    have hle := precisionYuan_le remainingDebt
    linarith

end Storage

namespace Storage

theorem runStep_remainingVAT_nonneg (i : InputParams) (year : ℕ) (s : RunState)
    (hcap : 0 ≤ i.capacity) (hvat : 0 ≤ i.vat_rate) (haug : 0 ≤ i.aug_price)
    (hs : 0 ≤ s.remainingVAT) :
    0 ≤ (runStep i year s).2.remainingVAT := by
  unfold runStep
  dsimp only
  apply calculateTaxes_newVATCredit_nonneg
  have hWh : 0 ≤ Wh i * i.aug_price := by
    have : (0 : ℚ) ≤ Wh i := by
      unfold Wh
      positivity
    positivity
  have hvr : (0 : ℚ) ≤ vatRateF i := by
    unfold vatRateF
    positivity
  have haugvat : (0 : ℚ) ≤
      (if year = i.aug_year ∧ 0 < i.aug_year then
        (if year = i.aug_year ∧ 0 < i.aug_year then Wh i * i.aug_price else 0) -
          (if year = i.aug_year ∧ 0 < i.aug_year then Wh i * i.aug_price else 0) /
            (1 + vatRateF i)
      else 0) := by
    split_ifs with h
    · have hdiv : Wh i * i.aug_price / (1 + vatRateF i) ≤ Wh i * i.aug_price :=
        div_le_self hWh (by linarith)
      linarith
    · exact le_refl 0
  linarith

theorem runStep_remainingDebt_nonneg (i : InputParams) (year : ℕ) (s : RunState)
    (hd : 0 ≤ s.remainingDebt) :
    0 ≤ (runStep i year s).2.remainingDebt := by
  unfold runStep
  dsimp only
  exact calculateLoanService_remainingDebt_nonneg _ _ _ _ _ hd

theorem runStep_currentSOH (i : InputParams) (year : ℕ) (s : RunState) :
    (runStep i year s).2.currentSOH =
      max (60/100) ((runStep i year s).1.sohStart -
        (if year = 1 then 4/100 else 25/1000)) := by
  unfold runStep calculatePhysics
  dsimp only

theorem yearOut_sohStart (i : InputParams) (y : ℕ) :
    (yearOut i y).sohStart =
      if y = i.aug_year ∧ 0 < i.aug_year then 95/100
      else (stateAfter i (y - 1)).currentSOH := by
  unfold yearOut runStep
  dsimp only

theorem stateAfter_succ_soh (i : InputParams) (k : ℕ) :
    (stateAfter i (k + 1)).currentSOH =
      max (60/100) ((yearOut i (k + 1)).sohStart -
        (if k + 1 = 1 then 4/100 else 25/1000)) := by
  have h1 : stateAfter i (k + 1) = (runStep i (k + 1) (stateAfter i k)).2 := rfl
  have h2 : yearOut i (k + 1) = (runStep i (k + 1) (stateAfter i k)).1 := rfl
  rw [h1, h2, runStep_currentSOH]

theorem stateAfter_soh_ge (i : InputParams) (k : ℕ) :
    60/100 ≤ (stateAfter i k).currentSOH := by
  cases k with
  | zero =>
    show (60/100 : ℚ) ≤ 1
    norm_num
  | succ k =>
    rw [stateAfter_succ_soh]
    exact le_max_left _ _

theorem yearOut_sohStart_ge (i : InputParams) (y : ℕ) :
    60/100 ≤ (yearOut i y).sohStart := by
  rw [yearOut_sohStart]
  split_ifs with h
  · norm_num
  · exact stateAfter_soh_ge i (y - 1)

end Storage

namespace Storage

theorem ite_singleton_nil (c : Prop) [Decidable c] (e : VErr) :
    ((if c then [e] else []) = []) ↔ ¬c := by
  split_ifs with h <;> simp [h]

theorem mem_ite_singleton (c : Prop) [Decidable c] (x e : VErr) :
    (x ∈ if c then [e] else []) ↔ c ∧ x = e := by
  split_ifs with h <;> simp [h]

theorem validateInputs_eq_nil_iff (i : InputParams) :
    validateInputs i = [] ↔ validRules i := by
  unfold validateInputs validRules
  simp only [List.append_eq_nil, ite_singleton_nil, not_or, not_le, not_lt]
  tauto

/-- Claim C4: for every year's inputs, the VAT payable and the carried
credit produced by `calculateTaxes` are exactly the four-branch
credit-carryforward policy of the specification, applied in order to the
computed payable (output VAT minus input VAT) and the existing credit. -/
theorem claim4_vat_branch_policy
    (revenueNet opexNet lossCostNet depreciation interest outputVAT inputVAT
      existingVATCredit taxRate surchargeRate : ℚ) :
    ((calculateTaxes revenueNet opexNet lossCostNet depreciation interest outputVAT
        inputVAT existingVATCredit taxRate surchargeRate).vatPayable,
     (calculateTaxes revenueNet opexNet lossCostNet depreciation interest outputVAT
        inputVAT existingVATCredit taxRate surchargeRate).newVATCredit) =
    vatCarryforwardPolicy (precisionYuan (outputVAT - inputVAT)) existingVATCredit := by
  unfold calculateTaxes vatCarryforwardPolicy
  dsimp only
  set p := precisionYuan (outputVAT - inputVAT) with hp
  rcases le_or_lt existingVATCredit 0 with hc | hc
  · rw [if_neg (not_lt.mpr hc),
      if_neg (fun h : 0 < existingVATCredit ∧ p ≤ existingVATCredit =>
        absurd h.1 (not_lt.mpr hc)),
      if_neg (fun h : 0 < existingVATCredit ∧ existingVATCredit < p =>
        absurd h.1 (not_lt.mpr hc))]
    rcases lt_or_le p 0 with hneg | hneg
    · rw [if_pos hneg, if_pos ⟨hneg, not_lt.mpr hc⟩]
    · rw [if_neg (not_lt.mpr hneg),
        if_neg (fun h : p < 0 ∧ ¬0 < existingVATCredit =>
          absurd h.1 (not_lt.mpr hneg))]
  · rcases le_or_lt p existingVATCredit with hple | hple
    · rw [if_pos hc, if_pos hple, if_pos ⟨hc, hple⟩]
    · rw [if_pos hc, if_neg (not_le.mpr hple),
        if_neg (fun h : 0 < existingVATCredit ∧ p ≤ existingVATCredit =>
          absurd h.2 (not_le.mpr hple)),
        if_pos ⟨hc, hple⟩]

end Storage

namespace Storage

/-- Claim C7: the run fails with the aggregated error list, and produces
no result, exactly when at least one of the eight validation rules is
violated; each rule violation is listed; when all rules hold the engine
returns the complete result of the run. -/
theorem claim7_validation_gate (i : InputParams) :
    ((∃ r, calculate i = Except.ok r) ↔ validRules i) ∧
    (validRules i → calculate i = Except.ok (runCalculation i)) ∧
    (¬validRules i →
      calculate i = Except.error (validateInputs i) ∧ validateInputs i ≠ []) ∧
    ((VErr.capacity ∈ validateInputs i) ↔ i.capacity ≤ 0) ∧
    ((VErr.duration ∈ validateInputs i) ↔ i.duration_hours ≤ 0) ∧
    ((VErr.cycles ∈ validateInputs i) ↔ i.cycles ≤ 0) ∧
    ((VErr.runDays ∈ validateInputs i) ↔ (i.run_days ≤ 0 ∨ 366 < i.run_days)) ∧
    ((VErr.debtRatioRange ∈ validateInputs i) ↔ (i.debt_ratio < 0 ∨ 100 < i.debt_ratio)) ∧
    ((VErr.dod ∈ validateInputs i) ↔ (i.dod ≤ 0 ∨ 100 < i.dod)) ∧
    ((VErr.efficiency ∈ validateInputs i) ↔ (i.charge_eff ≤ 0 ∨ i.discharge_eff ≤ 0)) ∧
    ((VErr.subDecline ∈ validateInputs i) ↔ (i.sub_decline < 0 ∨ 100 < i.sub_decline)) := by
  refine ⟨?_, ?_, ?_, ?_, ?_, ?_, ?_, ?_, ?_, ?_, ?_⟩
  · unfold calculate
    split_ifs with h
    · simp [(validateInputs_eq_nil_iff i).mp h]
    · constructor
      · rintro ⟨r, hr⟩
        exact absurd hr (by simp)
      · intro hv
        exact absurd ((validateInputs_eq_nil_iff i).mpr hv) h
  · intro hv
    unfold calculate
    rw [if_pos ((validateInputs_eq_nil_iff i).mpr hv)]
  · intro hv
    have hne : validateInputs i ≠ [] := fun h => hv ((validateInputs_eq_nil_iff i).mp h)
    unfold calculate
    rw [if_neg hne]
    exact ⟨rfl, hne⟩
  all_goals
    unfold validateInputs
    simp only [List.mem_append, mem_ite_singleton]
    simp
end Storage

namespace Storage

/-- Claim C5 (amended): for every parameter set that passes validation
and whose derived initial input-VAT credit and loan principal are
nonnegative, with nonnegative VAT rate and augmentation price, the VAT
credit and the remaining debt principal threaded through the run are
nonnegative after every year. -/
theorem claim5_amended (i : InputParams) (hv : validRules i)
    (h1 : 0 ≤ inputVATOf i) (h2 : 0 ≤ debtOf i) (h3 : 0 ≤ i.vat_rate)
    (h4 : 0 ≤ i.aug_price) :
    ∀ y : ℕ, 0 ≤ (stateAfter i y).remainingVAT ∧ 0 ≤ (stateAfter i y).remainingDebt := by
  intro y
  induction y with
  | zero => exact ⟨h1, h2⟩
  | succ k ih =>
    exact ⟨runStep_remainingVAT_nonneg i (k + 1) (stateAfter i k) (le_of_lt hv.1) h3 h4 ih.1,
           runStep_remainingDebt_nonneg i (k + 1) (stateAfter i k) ih.2⟩

set_option maxRecDepth 100000 in
/-- Counterexample to claim C5 as stated: a negative unit capital cost
passes validation (which does not constrain `capex`), and then both the
VAT credit and the remaining debt carried in the running state are
negative after year 1 of a full run. -/
theorem claim5_counterexample :
    validateInputs iCapexNeg = [] ∧
    (stateAfter iCapexNeg 1).remainingVAT < 0 ∧
    (stateAfter iCapexNeg 1).remainingDebt < 0 := by
  refine ⟨by with_unfolding_all rfl, ?_, ?_⟩ <;> with_unfolding_all decide

set_option maxRecDepth 100000 in
/-- Witness for the amended claim C5 at the default parameter set and
year 1. -/
theorem claim5_witness :
    validRules defaultInputs ∧ 0 ≤ inputVATOf defaultInputs ∧ 0 ≤ debtOf defaultInputs ∧
    0 ≤ defaultInputs.vat_rate ∧ 0 ≤ defaultInputs.aug_price ∧
    (0 ≤ (stateAfter defaultInputs 1).remainingVAT ∧
      0 ≤ (stateAfter defaultInputs 1).remainingDebt) :=
  ⟨by with_unfolding_all decide, by with_unfolding_all decide,
   by with_unfolding_all decide, by with_unfolding_all decide,
   by with_unfolding_all decide,
   claim5_amended defaultInputs (by with_unfolding_all decide)
     (by with_unfolding_all decide) (by with_unfolding_all decide)
     (by with_unfolding_all decide) (by with_unfolding_all decide) 1⟩

/-- Claim C8 (amended): across every run, the start-of-year SOH fed to
the physics model never falls below the 0.60 floor; at the configured
augmentation year it equals the fixed post-augmentation value 0.95 (not
100 %); and from any year to the next the value is non-increasing except
when the next year is the augmentation year. The 0.95 reset is an upward
reset only when the augmentation happens in year 3 or later; with an
augmentation in year 1 or 2 the pre-reset SOH (1.0 resp. 0.96) is above
0.95 and the reset lowers it. -/
theorem claim8_amended (i : InputParams) (y : ℕ) (hy : 1 ≤ y) :
    60/100 ≤ (yearOut i y).sohStart ∧
    (y = i.aug_year ∧ 0 < i.aug_year → (yearOut i y).sohStart = 95/100) ∧
    (¬(y + 1 = i.aug_year ∧ 0 < i.aug_year) →
      (yearOut i (y + 1)).sohStart ≤ (yearOut i y).sohStart) := by
  refine ⟨yearOut_sohStart_ge i y, ?_, ?_⟩
  · intro h
    rw [yearOut_sohStart, if_pos h]
  · intro h
    rw [yearOut_sohStart i (y + 1), if_neg h]
    have hsub : y + 1 - 1 = y := rfl
    rw [hsub]
    obtain ⟨k, rfl⟩ : ∃ k, y = k + 1 := ⟨y - 1, by omega⟩
    rw [stateAfter_succ_soh]
    apply max_le
    · exact yearOut_sohStart_ge i (k + 1)
    · have hdeg : (0 : ℚ) ≤ (if k + 1 = 1 then (4 : ℚ)/100 else 25/1000) := by
        split_ifs <;> norm_num
      linarith

set_option maxRecDepth 100000 in
/-- Counterexample to the "reset upward" part of claim C8 as stated: with
the augmentation configured in year 2, the SOH at the end of year 1 is
0.96 and the reset replaces it by 0.95 before the physics of year 2 run,
so the reset is downward. -/
theorem claim8_counterexample :
    iAug2.aug_year = 2 ∧
    (stateAfter iAug2 1).currentSOH = 24/25 ∧
    (yearOut iAug2 2).sohStart = 19/20 ∧
    (yearOut iAug2 2).sohStart < (stateAfter iAug2 1).currentSOH := by
  refine ⟨rfl, ?_, ?_, ?_⟩ <;> with_unfolding_all decide

/-- Witness for the amended claim C8 at the default parameter set and
year 1. -/
theorem claim8_witness :
    1 ≤ 1 ∧
    (60/100 ≤ (yearOut defaultInputs 1).sohStart ∧
     (1 = defaultInputs.aug_year ∧ 0 < defaultInputs.aug_year →
       (yearOut defaultInputs 1).sohStart = 95/100) ∧
     (¬(1 + 1 = defaultInputs.aug_year ∧ 0 < defaultInputs.aug_year) →
       (yearOut defaultInputs 2).sohStart ≤ (yearOut defaultInputs 1).sohStart)) :=
  ⟨le_refl 1, claim8_amended defaultInputs 1 (le_refl 1)⟩

/-- Claim C2 (amended): when the Newton-Raphson iteration of
`calculateIRR` sees a derivative of magnitude below the 0.0001 threshold,
or exhausts its iteration budget, it returns the guess current at that
point - the last iterate, not a distinguished sentinel - and no exception
is raised (the function is total and the rest of the result is still
assembled from it). -/
theorem claim2_amended (cf : List ℚ) (g : ℚ) (n : ℕ)
    (h : |derivAt cf g| < 1/10000) : irrGo cf g n = g := by
  cases n with
  | zero => rfl
  | succ n =>
    unfold irrGo
    dsimp only
    rw [if_pos h, ite_self]

/-- Witness for the amended claim C2: the series `[100]` has zero NPV
derivative at the initial guess, and the loop returns that guess. -/
theorem claim2_witness :
    |derivAt [100] (1/10)| < 1/10000 ∧ irrGo [100] (1/10) 100 = 1/10 :=
  ⟨by with_unfolding_all decide,
   claim2_amended [100] (1/10) 100 (by with_unfolding_all decide)⟩

/-- Counterexample to claim C2 as stated: the series `[100]` never meets
the NPV tolerance and stops on the near-zero derivative, yet
`calculateIRR` reports `0.1` - the same value it reports for the series
`[0]`, which converges immediately. The non-convergent report is the last
iterate and collides with a convergent report, so it is not a
distinguished sentinel. -/
theorem claim2_counterexample :
    calculateIRR [100] = 1/10 ∧ calculateIRR [0] = 1/10 ∧
    1/100 ≤ |npvAt [100] (1/10)| ∧ |derivAt [100] (1/10)| < 1/10000 := by
  refine ⟨?_, ?_, ?_, ?_⟩ <;> with_unfolding_all decide

end Storage


namespace Storage

theorem calculateDepreciation_foldl (l : List Asset) (a : ℚ) (u : List Asset) :
    l.foldl
      (fun (acc : ℚ × List Asset) asset =>
        (acc.1 +
          (if asset.age < asset.life then
            precisionYuan (asset.value * (1 - asset.residualRate) / (asset.life : ℚ))
          else 0),
         acc.2 ++ [{ asset with age := asset.age + 1 }])) (a, u) =
    (a + (l.map (fun asset =>
        if asset.age < asset.life then
          precisionYuan (asset.value * (1 - asset.residualRate) / (asset.life : ℚ))
        else 0)).sum,
     u ++ l.map (fun asset => { asset with age := asset.age + 1 })) := by
  induction l generalizing a u with
  | nil => simp
  | cons hd tl ih =>
    simp only [List.foldl_cons, List.map_cons, List.sum_cons]
    rw [ih, Prod.mk.injEq]
    constructor <;> simp [add_assoc]

/-- Claim C6 (amended): in every year, each vintage with `age < life`
contributes rounded straight-line depreciation `value * (1 - residual
rate) / life`, and each vintage with `age ≥ life` contributes zero; but
no vintage is ever dropped: the updated list keeps every vintage, expired
or not, with its age incremented. -/
theorem claim6_amended (assets : List Asset) :
    (calculateDepreciation assets).1 =
      precisionYuan ((assets.map (fun asset =>
        if asset.age < asset.life then
          precisionYuan (asset.value * (1 - asset.residualRate) / (asset.life : ℚ))
        else 0)).sum) ∧
    (calculateDepreciation assets).2 =
      assets.map (fun asset => { asset with age := asset.age + 1 }) := by
  unfold calculateDepreciation
  rw [calculateDepreciation_foldl]
  constructor <;> simp

set_option maxRecDepth 100000 in
/-- Counterexample to claim C6 as stated: an expired vintage (age = life
= 1) contributes zero depreciation but is NOT dropped - it stays in the
updated list with age 2; and in a run whose base vintage expires before
the final year (two-year horizon, one-year depreciation life), the final
year books zero depreciation yet the residual-value sum still counts the
expired vintage (600000000/113, about 5.31 million). -/
theorem claim6_counterexample :
    (calculateDepreciation [{ value := 100, life := 1, age := 1, residualRate := 1/20 }]).1
      = 0 ∧
    (calculateDepreciation [{ value := 100, life := 1, age := 1, residualRate := 1/20 }]).2
      = [{ value := 100, life := 1, age := 2, residualRate := 1/20 }] ∧
    (yearOut iExpired 2).annualDep = 0 ∧
    0 < (yearOut iExpired 2).residualValue := by
  have h3 : (yearOut iExpired 2).annualDep = 0 := by with_unfolding_all rfl
  have h4 : (yearOut iExpired 2).residualValue = 600000000/113 := by
    with_unfolding_all rfl
  refine ⟨by with_unfolding_all rfl, by with_unfolding_all rfl, h3, ?_⟩
  rw [h4]
  norm_num

set_option maxRecDepth 100000 in
/-- Claim C9: in the end-to-end scenario (capacity 100 energy units,
duration 2, 2 cycles/day, 330 days, DOD 90 %, both efficiencies 94 %,
one-year horizon, no debt, no subsidy, no augmentation), the engine
year-1 discharge energy, loss energy and gross arbitrage revenue equal
direct substitution into the physics and revenue formulas: usable
capacity from the average of start- and end-of-year SOH with the 4 %
first-year decay and the 0.60 floor, discharge = usable x discharge
efficiency x cycles x days / 1000, charge = usable / charge efficiency x
cycles x days / 1000, loss = charge - discharge, arbitrage = discharge x
spread. -/
theorem claim9_end_to_end :
    (yearOut iScenario 1).physics.annualDischargeKWh =
      precisionCalc (100 * 1000000 * ((1 + max (60/100) (1 - 4/100)) / 2) * (90/100) *
        (94/100) * 2 * 330 / 1000) ∧
    (yearOut iScenario 1).physics.annualDischargeKWh = 54719280 ∧
    (yearOut iScenario 1).physics.lossKWh =
      precisionCalc
        (precisionCalc (100 * 1000000 * ((1 + max (60/100) (1 - 4/100)) / 2) * (90/100) /
            (94/100) * 2 * 330 / 1000) -
         precisionCalc (100 * 1000000 * ((1 + max (60/100) (1 - 4/100)) / 2) * (90/100) *
            (94/100) * 2 * 330 / 1000)) ∧
    (yearOut iScenario 1).physics.lossKWh = 72083795745/10000 ∧
    (yearOut iScenario 1).revenue.elecRevGross = precisionYuan (54719280 * (70/100)) ∧
    (yearOut iScenario 1).revenue.elecRevGross = 38303496 := by
  refine ⟨?_, ?_, ?_, ?_, ?_, ?_⟩ <;> with_unfolding_all rfl

set_option maxRecDepth 100000 in
/-- Claim C3: the drill-down SOH reconstruction diverges from the
production loop. With the augmentation in year 2, the production loop
enters year 3 with SOH 0.925 (the 0.95 reset minus the 0.025 degradation
of the augmentation year itself), but the drill-down formula
reconstructs 0.95 for year 3, omitting the augmentation-year
degradation. -/
theorem claim3_drilldown_divergence :
    createCalculationDetailSOH iAug2 3 = 19/20 ∧
    (yearOut iAug2 3).sohStart = 37/40 ∧
    createCalculationDetailSOH iAug2 3 ≠ (yearOut iAug2 3).sohStart := by
  have h1 : createCalculationDetailSOH iAug2 3 = 19/20 := by with_unfolding_all rfl
  have h2 : (yearOut iAug2 3).sohStart = 37/40 := by with_unfolding_all rfl
  refine ⟨h1, h2, ?_⟩
  rw [h1, h2]
  norm_num

end Storage

namespace Storage

/-- Claim C1 (amended): for every simulated year, the LCOE cost-series
entry equals the rounded sum of the net operating cost and the net
charging cost, increased by the net augmentation amount in the
augmentation year and reduced by the residual value in the final year -
the yearly taxes are NOT part of the series; and the series is built from
these entries independently of the project cash flow. -/
theorem claim1_amended (i : InputParams) (y : ℕ) (hy : 1 ≤ y) (hyr : y ≤ i.years) :
    costEntry i y =
      precisionYuan ((yearOut i y).costs.opexNet + (yearOut i y).costs.lossCostNet +
        (yearOut i y).augNet - (yearOut i y).residualValue) ∧
    (yearOut i y).augNet =
      (if y = i.aug_year ∧ 0 < i.aug_year then Wh i * i.aug_price / (1 + vatRateF i)
       else 0) ∧
    (yearOut i y).residualValue =
      (if y = i.years then
        (((stateAfter i y).assets).map (fun a => a.value * a.residualRate)).sum
       else 0) := by
  obtain ⟨k, rfl⟩ : ∃ k, y = k + 1 := ⟨y - 1, by omega⟩
  refine ⟨rfl, ?_, rfl⟩
  show (if k + 1 = i.aug_year ∧ 0 < i.aug_year then
          (if k + 1 = i.aug_year ∧ 0 < i.aug_year then Wh i * i.aug_price else 0) /
            (1 + vatRateF i)
        else 0) = _
  split_ifs with h
  · rfl
  · rfl

set_option maxRecDepth 100000 in
/-- Counterexample to claim C1 as stated: at the default parameters with
a one-year horizon, the cost-series entry of year 1 differs from the
formula of the claim (net operating cost + net charging cost + total tax
+ augmentation - residual): the code books -40652348/25 while the claim
formula gives 774791717/100, the difference being the year tax of
937401109/100. -/
theorem claim1_counterexample :
    costEntry iYears1 1 = -(40652348/25) ∧
    precisionYuan ((yearOut iYears1 1).costs.opexNet + (yearOut iYears1 1).costs.lossCostNet +
        ((yearOut iYears1 1).taxes.vatPayable + (yearOut iYears1 1).taxes.surcharge +
          (yearOut iYears1 1).taxes.incomeTax) +
        (yearOut iYears1 1).augNet - (yearOut iYears1 1).residualValue) = 774791717/100 ∧
    costEntry iYears1 1 ≠
      precisionYuan ((yearOut iYears1 1).costs.opexNet + (yearOut iYears1 1).costs.lossCostNet +
        ((yearOut iYears1 1).taxes.vatPayable + (yearOut iYears1 1).taxes.surcharge +
          (yearOut iYears1 1).taxes.incomeTax) +
        (yearOut iYears1 1).augNet - (yearOut iYears1 1).residualValue) := by
  have h1 : costEntry iYears1 1 = -(40652348/25) := by with_unfolding_all rfl
  have h2 : precisionYuan ((yearOut iYears1 1).costs.opexNet + (yearOut iYears1 1).costs.lossCostNet +
        ((yearOut iYears1 1).taxes.vatPayable + (yearOut iYears1 1).taxes.surcharge +
          (yearOut iYears1 1).taxes.incomeTax) +
        (yearOut iYears1 1).augNet - (yearOut iYears1 1).residualValue) = 774791717/100 := by
    with_unfolding_all rfl
  refine ⟨h1, h2, ?_⟩
  rw [h1, h2]
  norm_num

/-- Witness for the amended claim C1 at the default one-year parameter
set and year 1. -/
theorem claim1_witness :
    1 ≤ 1 ∧ 1 ≤ iYears1.years ∧
    (costEntry iYears1 1 =
      precisionYuan ((yearOut iYears1 1).costs.opexNet + (yearOut iYears1 1).costs.lossCostNet +
        (yearOut iYears1 1).augNet - (yearOut iYears1 1).residualValue) ∧
    (yearOut iYears1 1).augNet =
      (if 1 = iYears1.aug_year ∧ 0 < iYears1.aug_year then
        Wh iYears1 * iYears1.aug_price / (1 + vatRateF iYears1)
       else 0) ∧
    (yearOut iYears1 1).residualValue =
      (if 1 = iYears1.years then
        (((stateAfter iYears1 1).assets).map (fun a => a.value * a.residualRate)).sum
       else 0)) :=
  ⟨le_refl 1, by decide, claim1_amended iYears1 1 (le_refl 1) (by decide)⟩

/-- Claim C10: in the augmentation year, the equity cash-flow entry is
reduced by the gross (VAT-inclusive) augmentation outlay `Wh *
aug_price`, while the project cash-flow entry and the LCOE cost entry
move only by the net (VAT-excluded) amount `augCost / (1 + vatRate)`, and
the VAT portion `augCost - augNet` is added to the running VAT credit
before the year taxes are computed. -/
theorem claim10_augmentation (i : InputParams) (y : ℕ)
    (h : y = i.aug_year ∧ 0 < i.aug_year) :
    (yearOut i y).augCost = Wh i * i.aug_price ∧
    (yearOut i y).augNet = (yearOut i y).augCost / (1 + vatRateF i) ∧
    (yearOut i y).augVAT = (yearOut i y).augCost - (yearOut i y).augNet ∧
    (yearOut i y).augCost = (yearOut i y).augNet + (yearOut i y).augVAT ∧
    equityEntry i y =
      precisionYuan ((yearOut i y).taxes.netProfit + (yearOut i y).annualDep -
        (yearOut i y).loan.principal - (yearOut i y).augCost +
        (yearOut i y).residualValue) ∧
    projectEntry i y =
      precisionYuan (((yearOut i y).taxes.ebit - (yearOut i y).taxes.surcharge) *
        (1 - (yearOut i y).currentTaxRate) + (yearOut i y).annualDep -
        (yearOut i y).augNet + (yearOut i y).residualValue) ∧
    costEntry i y =
      precisionYuan ((yearOut i y).costs.opexNet + (yearOut i y).costs.lossCostNet +
        (yearOut i y).augNet - (yearOut i y).residualValue) ∧
    (yearOut i y).creditBeforeTaxes =
      (stateAfter i (y - 1)).remainingVAT + (yearOut i y).augVAT := by
  have hCost : (yearOut i y).augCost = Wh i * i.aug_price := by
    show (if y = i.aug_year ∧ 0 < i.aug_year then Wh i * i.aug_price else 0) = _
    rw [if_pos h]
  have hNet : (yearOut i y).augNet = (yearOut i y).augCost / (1 + vatRateF i) := by
    show (if y = i.aug_year ∧ 0 < i.aug_year then
            (if y = i.aug_year ∧ 0 < i.aug_year then Wh i * i.aug_price else 0) /
              (1 + vatRateF i)
          else 0) = _
    rw [if_pos h, if_pos h, ← hCost]
  have hVAT : (yearOut i y).augVAT = (yearOut i y).augCost - (yearOut i y).augNet := by
    show (if y = i.aug_year ∧ 0 < i.aug_year then
            (if y = i.aug_year ∧ 0 < i.aug_year then Wh i * i.aug_price else 0) -
              (if y = i.aug_year ∧ 0 < i.aug_year then Wh i * i.aug_price else 0) /
                (1 + vatRateF i)
          else 0) = _
    rw [if_pos h, hNet, hCost, if_pos h]
  refine ⟨hCost, hNet, hVAT, by rw [hVAT]; ring, rfl, rfl, rfl, rfl⟩

set_option maxRecDepth 100000 in
/-- Witness for claim C10 at the default parameter set with the
augmentation in year 1 and a one-year horizon. -/
theorem claim10_witness :
    (1 = iAug1.aug_year ∧ 0 < iAug1.aug_year) ∧
    ((yearOut iAug1 1).augCost = Wh iAug1 * iAug1.aug_price ∧
     (yearOut iAug1 1).augNet = (yearOut iAug1 1).augCost / (1 + vatRateF iAug1) ∧
     (yearOut iAug1 1).augVAT = (yearOut iAug1 1).augCost - (yearOut iAug1 1).augNet ∧
     (yearOut iAug1 1).augCost = (yearOut iAug1 1).augNet + (yearOut iAug1 1).augVAT ∧
     equityEntry iAug1 1 =
       precisionYuan ((yearOut iAug1 1).taxes.netProfit + (yearOut iAug1 1).annualDep -
         (yearOut iAug1 1).loan.principal - (yearOut iAug1 1).augCost +
         (yearOut iAug1 1).residualValue) ∧
     projectEntry iAug1 1 =
       precisionYuan (((yearOut iAug1 1).taxes.ebit - (yearOut iAug1 1).taxes.surcharge) *
         (1 - (yearOut iAug1 1).currentTaxRate) + (yearOut iAug1 1).annualDep -
         (yearOut iAug1 1).augNet + (yearOut iAug1 1).residualValue) ∧
     costEntry iAug1 1 =
       precisionYuan ((yearOut iAug1 1).costs.opexNet + (yearOut iAug1 1).costs.lossCostNet +
         (yearOut iAug1 1).augNet - (yearOut iAug1 1).residualValue) ∧
     (yearOut iAug1 1).creditBeforeTaxes =
       (stateAfter iAug1 0).remainingVAT + (yearOut iAug1 1).augVAT) :=
  ⟨by decide, claim10_augmentation iAug1 1 (by decide)⟩

end Storage

namespace Storage

/-- Witness for claim C7 at the default parameter set (all rules hold
and the run returns the complete result). -/
theorem claim7_witness :
    ((∃ r, calculate defaultInputs = Except.ok r) ↔ validRules defaultInputs) ∧
    (validRules defaultInputs →
      calculate defaultInputs = Except.ok (runCalculation defaultInputs)) ∧
    (¬validRules defaultInputs →
      calculate defaultInputs = Except.error (validateInputs defaultInputs) ∧
        validateInputs defaultInputs ≠ []) ∧
    ((VErr.capacity ∈ validateInputs defaultInputs) ↔ defaultInputs.capacity ≤ 0) ∧
    ((VErr.duration ∈ validateInputs defaultInputs) ↔ defaultInputs.duration_hours ≤ 0) ∧
    ((VErr.cycles ∈ validateInputs defaultInputs) ↔ defaultInputs.cycles ≤ 0) ∧
    ((VErr.runDays ∈ validateInputs defaultInputs) ↔
      (defaultInputs.run_days ≤ 0 ∨ 366 < defaultInputs.run_days)) ∧
    ((VErr.debtRatioRange ∈ validateInputs defaultInputs) ↔
      (defaultInputs.debt_ratio < 0 ∨ 100 < defaultInputs.debt_ratio)) ∧
    ((VErr.dod ∈ validateInputs defaultInputs) ↔
      (defaultInputs.dod ≤ 0 ∨ 100 < defaultInputs.dod)) ∧
    ((VErr.efficiency ∈ validateInputs defaultInputs) ↔
      (defaultInputs.charge_eff ≤ 0 ∨ defaultInputs.discharge_eff ≤ 0)) ∧
    ((VErr.subDecline ∈ validateInputs defaultInputs) ↔
      (defaultInputs.sub_decline < 0 ∨ 100 < defaultInputs.sub_decline)) :=
  claim7_validation_gate defaultInputs

end Storage
